import Mathlib

/-!
Verification of the PowerDash HR interview scheduler core
(`src/ics_utils.py`, `src/graph_client.py`) against its specification.

Python strings are modelled as lists of characters (`Str`), Python
`datetime` values as a naive epoch-second count paired with an optional
UTC offset, and fallible Python code as `Except`.
-/

namespace Scheduler

/-- Python `str`, modelled as a list of characters. -/
abbrev Str := List Char

/-- Coerce a Lean string literal to the `Str` model. -/
def str (s : String) : Str := s.data

/-- The character class stripped by Python `str.strip()` (ASCII whitespace
plus the other code points Python treats as whitespace that can occur in
`str` values we reason about). -/
def isSpaceChar (c : Char) : Bool :=
  c = ' ' ∨ c = '\t' ∨ c = '\n' ∨ c = '\x0b' ∨ c = '\x0c' ∨ c = '\r' ∨
  c = '\x1c' ∨ c = '\x1d' ∨ c = '\x1e' ∨ c = '\x1f' ∨ c = '\x85' ∨ c = '\xa0'

/-- Python `s.strip()`: remove leading and trailing whitespace. -/
def stripC (s : Str) : Str :=
  ((s.dropWhile isSpaceChar).reverse.dropWhile isSpaceChar).reverse

/-- Python `sep.join(parts)`. -/
def joinSep (sep : Str) : List Str → Str
  | [] => []
  | [p] => p
  | p :: ps => p ++ sep ++ joinSep sep ps

/-- UTF-8 encoding of one character (RFC 3629). -/
def utf8Char (c : Char) : List Nat :=
  let n := c.toNat
  if n < 128 then [n]
  else if n < 2048 then [192 + n / 64, 128 + n % 64]
  else if n < 65536 then [224 + n / 4096, 128 + n / 64 % 64, 128 + n % 64]
  else [240 + n / 262144, 128 + n / 4096 % 64, 128 + n / 64 % 64, 128 + n % 64]

/-- Python `s.encode("utf-8")`: the UTF-8 bytes of a string. -/
def utf8Encode (s : Str) : List Nat := s.flatMap utf8Char

/-! ### SHA-256 (FIPS 180-4), over byte lists -/

/-- Truncate to a 32-bit word. -/
def w32 (n : Nat) : Nat := n % 4294967296

/-- Rotate a 32-bit word right by `n` bits. -/
def rotr (n x : Nat) : Nat := (x >>> n) + (x % 2 ^ n) * 2 ^ (32 - n)

/-- Shift a 32-bit word right by `n` bits. -/
def shr (n x : Nat) : Nat := x >>> n

def bigSigma0 (x : Nat) : Nat := (rotr 2 x) ^^^ (rotr 13 x) ^^^ (rotr 22 x)
def bigSigma1 (x : Nat) : Nat := (rotr 6 x) ^^^ (rotr 11 x) ^^^ (rotr 25 x)
def smallSigma0 (x : Nat) : Nat := (rotr 7 x) ^^^ (rotr 18 x) ^^^ (shr 3 x)
def smallSigma1 (x : Nat) : Nat := (rotr 17 x) ^^^ (rotr 19 x) ^^^ (shr 10 x)

def shaCh (x y z : Nat) : Nat := (x &&& y) ^^^ ((4294967295 - w32 x) &&& z)
def shaMaj (x y z : Nat) : Nat := (x &&& y) ^^^ (x &&& z) ^^^ (y &&& z)

/-- The SHA-256 round constants (FIPS 180-4 §4.2.2, in decimal). -/
def shaK : List Nat :=
  [1116352408, 1899447441, 3049323471, 3921009573, 961987163,
   1508970993, 2453635748, 2870763221, 3624381080, 310598401,
   607225278, 1426881987, 1925078388, 2162078206, 2614888103,
   3248222580, 3835390401, 4022224774, 264347078, 604807628,
   770255983, 1249150122, 1555081692, 1996064986, 2554220882,
   2821834349, 2952996808, 3210313671, 3336571891, 3584528711,
   113926993, 338241895, 666307205, 773529912, 1294757372,
   1396182291, 1695183700, 1986661051, 2177026350, 2456956037,
   2730485921, 2820302411, 3259730800, 3345764771, 3516065817,
   3600352804, 4094571909, 275423344, 430227734, 506948616,
   659060556, 883997877, 958139571, 1322822218, 1537002063,
   1747873779, 1955562222, 2024104815, 2227730452, 2361852424,
   2428436474, 2756734187, 3204031479, 3329325298]

/-- The SHA-256 initial hash value (FIPS 180-4 §5.3.3, in decimal). -/
def shaH0 : List Nat :=
  [1779033703, 3144134277, 1013904242, 2773480762,
   1359893119, 2600822924, 528734635, 1541459225]

/-- Big-endian 8-byte encoding of a natural number. -/
def be64 (n : Nat) : List Nat :=
  [n / 2 ^ 56 % 256, n / 2 ^ 48 % 256, n / 2 ^ 40 % 256, n / 2 ^ 32 % 256,
   n / 2 ^ 24 % 256, n / 2 ^ 16 % 256, n / 2 ^ 8 % 256, n % 256]

/-- SHA-256 message padding: append `0x80`, zero bytes to 56 mod 64, then
the bit length as a big-endian 64-bit integer. -/
def padMsg (m : List Nat) : List Nat :=
  let L := m.length
  let z := (120 - (L + 1) % 64) % 64
  m ++ [128] ++ List.replicate z 0 ++ be64 (8 * L)

/-- Split a byte list into 64-byte blocks (the fuel bounds the number of
blocks; `l.length` is always enough). -/
def blocks64Aux : Nat → List Nat → List (List Nat)
  | 0, _ => []
  | _, [] => []
  | n + 1, l => l.take 64 :: blocks64Aux n (l.drop 64)

/-- Split a byte list into 64-byte blocks. -/
def blocks64 (l : List Nat) : List (List Nat) := blocks64Aux l.length l

/-- Pack a block of bytes into big-endian 32-bit words. -/
def wordsOf : List Nat → List Nat
  | b0 :: b1 :: b2 :: b3 :: rest =>
      (b0 * 16777216 + b1 * 65536 + b2 * 256 + b3) :: wordsOf rest
  | _ => []

/-- Extend the 16 message words with `k` additional schedule words. -/
def extendW (w : List Nat) : Nat → List Nat
  | 0 => w
  | k + 1 =>
      let v := extendW w k
      let t := v.length
      v ++ [w32 (smallSigma1 (v.getD (t - 2) 0) + v.getD (t - 7) 0 +
                 smallSigma0 (v.getD (t - 15) 0) + v.getD (t - 16) 0)]

/-- Working state of the SHA-256 compression function. -/
structure ShaState where
  a : Nat
  b : Nat
  c : Nat
  d : Nat
  e : Nat
  f : Nat
  g : Nat
  h : Nat

/-- One round of the SHA-256 compression function. -/
def shaRound (s : ShaState) (kw : Nat × Nat) : ShaState :=
  let t1 := s.h + bigSigma1 s.e + shaCh s.e s.f s.g + kw.1 + kw.2
  let t2 := bigSigma0 s.a + shaMaj s.a s.b s.c
  ⟨w32 (t1 + t2), s.a, s.b, s.c, w32 (s.d + t1), s.e, s.f, s.g⟩

/-- Compress one 64-byte block into the running hash value. -/
def shaBlock (hv : List Nat) (blk : List Nat) : List Nat :=
  let w := extendW (wordsOf blk) 48
  let s0 : ShaState :=
    ⟨hv.getD 0 0, hv.getD 1 0, hv.getD 2 0, hv.getD 3 0,
     hv.getD 4 0, hv.getD 5 0, hv.getD 6 0, hv.getD 7 0⟩
  let s := (shaK.zip w).foldl shaRound s0
  [w32 (hv.getD 0 0 + s.a), w32 (hv.getD 1 0 + s.b), w32 (hv.getD 2 0 + s.c),
   w32 (hv.getD 3 0 + s.d), w32 (hv.getD 4 0 + s.e), w32 (hv.getD 5 0 + s.f),
   w32 (hv.getD 6 0 + s.g), w32 (hv.getD 7 0 + s.h)]

/-- SHA-256 digest of a byte list, as eight 32-bit words. -/
def sha256Words (m : List Nat) : List Nat :=
  (blocks64 (padMsg m)).foldl shaBlock shaH0

/-- A lowercase hexadecimal digit. -/
def hexDigit (n : Nat) : Char :=
  Char.ofNat (if n < 10 then 48 + n else 87 + n)

/-- Lowercase hexadecimal rendering of a 32-bit word (8 digits). -/
def hexOfWord (w : Nat) : Str :=
  [hexDigit (w / 2 ^ 28 % 16), hexDigit (w / 2 ^ 24 % 16),
   hexDigit (w / 2 ^ 20 % 16), hexDigit (w / 2 ^ 16 % 16),
   hexDigit (w / 2 ^ 12 % 16), hexDigit (w / 2 ^ 8 % 16),
   hexDigit (w / 2 ^ 4 % 16), hexDigit (w % 16)]

/-- Python `hashlib.sha256(m).hexdigest()`: 64 lowercase hex characters. -/
def sha256hex (m : List Nat) : Str :=
  (sha256Words m).flatMap hexOfWord

/-! ### `stable_uid` (src/ics_utils.py lines 11-18) -/

/-- Model of `stable_uid(*parts)` from `src/ics_utils.py`:
`base = "|".join([p.strip() for p in parts if p])`, then the first 32 hex
digits of SHA-256 of the UTF-8 bytes of `base`, with `@powerdashhr.com`
appended. Note the filter `if p` keeps any non-empty part, including
whitespace-only parts, which strip to the empty string. -/
def stable_uid (parts : List Str) : Str :=
  let base := joinSep (str "|") ((parts.filter (fun p => p ≠ [])).map stripC)
  (sha256hex (utf8Encode base)).take 32 ++ str "@powerdashhr.com"

/-- The reference pipeline in the spec's words (§4.1): discard empty or
blank parts (those that strip to nothing), trim the remaining parts, join
with `|`, hash, truncate, append the domain suffix. -/
def spec_derive_uid (parts : List Str) : Str :=
  let base := joinSep (str "|") ((parts.filter (fun p => stripC p ≠ [])).map stripC)
  (sha256hex (utf8Encode base)).take 32 ++ str "@powerdashhr.com"

/-! ### Python `datetime` model

A `datetime` is its naive civil components (encoded as epoch seconds of
those components read as UTC) together with an optional UTC offset in
minutes (`tzinfo`); `timezone.utc` is `some 0`, a naive value is `none`.
Sub-second precision is not modelled (no claim involves microseconds). -/

structure PyDateTime where
  naiveSec : Int
  off : Option Int
deriving DecidableEq

/-- Days from civil date (proleptic Gregorian), days since 1970-01-01. -/
def daysFromCivil (y m d : Int) : Int :=
  let y2 := y - (if m ≤ 2 then 1 else 0)
  let era := Int.fdiv y2 400
  let yoe := y2 - era * 400
  let doy := (153 * (m + (if 2 < m then -3 else 9)) + 2) / 5 + d - 1
  let doe := yoe * 365 + yoe / 4 - yoe / 100 + doy
  era * 146097 + doe - 719468

/-- Civil date from days since 1970-01-01 (proleptic Gregorian). -/
def civilFromDays (z0 : Int) : Int × Int × Int :=
  let z := z0 + 719468
  let era := Int.fdiv z 146097
  let doe := z - era * 146097
  let yoe := (doe - doe / 1460 + doe / 36524 - doe / 146096) / 365
  let y := yoe + era * 400
  let doy := doe - (365 * yoe + yoe / 4 - yoe / 100)
  let mp := (5 * doy + 2) / 153
  let d := doy - (153 * mp + 2) / 5 + 1
  let m := mp + (if mp < 10 then 3 else -9)
  (y + (if m ≤ 2 then 1 else 0), m, d)

/-- Construct a `datetime(y, mo, d, h, mi, s, tzinfo)`. -/
def mkDT (y mo d h mi s : Int) (off : Option Int) : PyDateTime :=
  ⟨daysFromCivil y mo d * 86400 + h * 3600 + mi * 60 + s, off⟩

/-- The absolute instant (epoch seconds) of a datetime, reading a naive
value as UTC. -/
def PyDateTime.instant (dt : PyDateTime) : Int :=
  dt.naiveSec - (dt.off.getD 0) * 60

/-- Python `dt1 <= dt2`: naive values compare by components, aware values
by instant, and mixing naive with aware raises `TypeError`. -/
inductive PyErr where
  | ics : Str → PyErr
  | typeMismatch : PyErr
deriving DecidableEq

def dtLeB (a b : PyDateTime) : Except PyErr Bool :=
  match a.off, b.off with
  | none, none => .ok (decide (a.naiveSec ≤ b.naiveSec))
  | some _, some _ => .ok (decide (a.instant ≤ b.instant))
  | _, _ => .error .typeMismatch

/-- Zero-padded decimal rendering of a natural number, at least `w` digits
(`strftime` style). -/
def padNum (w n : Nat) : Str :=
  let s := (Nat.repr n).data
  List.replicate (w - s.length) '0' ++ s

/-- Rendering `strftime("%Y%m%dT%H%M%SZ")` on the civil components of the instant
`u` (epoch seconds) read in UTC. -/
def fmtBasic (u : Int) : Str :=
  let days := Int.fdiv u 86400
  let sod := (Int.fmod u 86400).toNat
  let ymd := civilFromDays days
  padNum 4 ymd.1.toNat ++ padNum 2 ymd.2.1.toNat ++ padNum 2 ymd.2.2.toNat ++
    ['T'] ++ padNum 2 (sod / 3600) ++ padNum 2 (sod % 3600 / 60) ++
    padNum 2 (sod % 60) ++ ['Z']

/-- Model of `_fmt_dt` from `src/ics_utils.py` lines 21-29: a naive datetime gets
`tzinfo=timezone.utc` attached, then the value is converted to UTC with
`astimezone` and formatted as `YYYYMMDDTHHMMSSZ`. -/
def _fmt_dt (dt : PyDateTime) : Str :=
  let dt1 := if dt.off = none then { dt with off := some 0 } else dt
  fmtBasic dt1.instant

/-- Python `a or b` on strings: `a` if non-empty, else `b`. -/
def pyOr (a b : Str) : Str := if a = [] then b else a

/-- Model of `dt.isoformat()` at second precision: `YYYY-MM-DDTHH:MM:SS` plus
`+HH:MM` / `-HH:MM` when the value is aware. -/
def isoformat (dt : PyDateTime) : Str :=
  let days := Int.fdiv dt.naiveSec 86400
  let sod := (Int.fmod dt.naiveSec 86400).toNat
  let ymd := civilFromDays days
  let datePart :=
    padNum 4 ymd.1.toNat ++ ['-'] ++ padNum 2 ymd.2.1.toNat ++ ['-'] ++
      padNum 2 ymd.2.2.toNat ++ ['T'] ++ padNum 2 (sod / 3600) ++ [':'] ++
      padNum 2 (sod % 3600 / 60) ++ [':'] ++ padNum 2 (sod % 60)
  match dt.off with
  | none => datePart
  | some o =>
      datePart ++ [if o < 0 then '-' else '+'] ++
        padNum 2 (o.natAbs / 60) ++ [':'] ++ padNum 2 (o.natAbs % 60)

/-! ### `ICSInvite` (src/ics_utils.py lines 32-99) -/

/-- One attendee dict: keys `email`, `name`, `role`, each possibly
absent (`a.get(k)` returning `None` is `none`). -/
structure Attendee where
  email : Option Str
  name : Option Str
  role : Option Str
deriving DecidableEq

/-- Line 85: `(a.get("email") or "").strip()`. -/
def attendeeEmail (a : Attendee) : Str := stripC (a.email.getD [])

/-- Line 86: `(a.get("name") or "").strip() or email`. -/
def attendeeName (a : Attendee) : Str :=
  pyOr (stripC (a.name.getD [])) (attendeeEmail a)

/-- Line 87: `(a.get("role") or "REQ-PARTICIPANT").strip()`. -/
def attendeeRole (a : Attendee) : Str :=
  stripC (pyOr (a.role.getD []) (str "REQ-PARTICIPANT"))

/-- The ATTENDEE content line built at line 91 of `src/ics_utils.py`. -/
def attendeeLine (a : Attendee) : Str :=
  str "ATTENDEE;CN=" ++ attendeeName a ++ str ";ROLE=" ++ attendeeRole a ++
    str ";PARTSTAT=NEEDS-ACTION;RSVP=TRUE:MAILTO:" ++ attendeeEmail a

structure ICSInvite where
  uid : Str
  summary : Str
  description : Str
  location : Str
  organizer_email : Str
  organizer_name : Str
  attendees : List Attendee
  start_utc : PyDateTime
  end_utc : PyDateTime
  method : Str := str "REQUEST"
deriving DecidableEq

/-- Model of `ICSInvite.validate` (lines 45-55): reject empty uid/summary/organizer
email, then reject `end_utc <= start_utc`.  The `isinstance` check always
passes in this typed model. -/
def ICSInvite.validate (inv : ICSInvite) : Except PyErr Unit :=
  if inv.uid = [] then .error (.ics (str "Missing UID"))
  else if inv.summary = [] then .error (.ics (str "Missing summary"))
  else if inv.organizer_email = [] then .error (.ics (str "Missing organizer email"))
  else
    match dtLeB inv.end_utc inv.start_utc with
    | .error e => .error e
    | .ok true => .error (.ics (str "end_utc must be after start_utc"))
    | .ok false => .ok ()

/-- The 17 lines of the `lines` literal at lines 64-82.  `now` is the
epoch-second wall clock; `datetime.now(timezone.utc)` is `⟨now, some 0⟩`. -/
def icsHead (inv : ICSInvite) (now : Int) : List Str :=
  [str "BEGIN:VCALENDAR",
   str "PRODID:-//PowerDash HR//Interview Scheduler//EN",
   str "VERSION:2.0",
   str "METHOD:" ++ inv.method,
   str "CALSCALE:GREGORIAN",
   str "BEGIN:VEVENT",
   str "UID:" ++ inv.uid,
   str "DTSTAMP:" ++ _fmt_dt ⟨now, some 0⟩,
   str "DTSTART:" ++ _fmt_dt inv.start_utc,
   str "DTEND:" ++ _fmt_dt inv.end_utc,
   str "SUMMARY:" ++ inv.summary,
   str "DESCRIPTION:" ++ inv.description,
   str "LOCATION:" ++ inv.location,
   str "ORGANIZER;CN=" ++ inv.organizer_name ++ str ":MAILTO:" ++ inv.organizer_email,
   str "SEQUENCE:0",
   str "STATUS:CONFIRMED",
   str "TRANSP:OPAQUE"]

/-- The ATTENDEE lines appended by the loop at lines 84-92: one line per
attendee whose stripped email is non-empty, in input order. -/
def icsAttendees (inv : ICSInvite) : List Str :=
  (inv.attendees.filter (fun a => attendeeEmail a ≠ [])).map attendeeLine

/-- The full line list of the rendered document (lines 64-97). -/
def to_ics_lines (inv : ICSInvite) (now : Int) : List Str :=
  icsHead inv now ++ icsAttendees inv ++ [str "END:VEVENT", str "END:VCALENDAR"]

/-- Line 99: `"\r\n".join(lines) + "\r\n"`. -/
def joinCRLF (lines : List Str) : Str :=
  joinSep (str "\r\n") lines ++ str "\r\n"

/-- Model of `ICSInvite.to_ics` (lines 57-99): validate, then join the line list
with CRLF terminators. -/
def ICSInvite.to_ics (inv : ICSInvite) (now : Int) : Except PyErr Str :=
  match inv.validate with
  | .error e => .error e
  | .ok _ => .ok (joinCRLF (to_ics_lines inv now))

/-- Lines 117-118: a naive start gets `tzinfo=timezone.utc` attached. -/
def interviewStart (start_utc : PyDateTime) : PyDateTime :=
  if start_utc.off = none then { start_utc with off := some 0 } else start_utc

/-- Lines 120-135 of `create_ics_from_interview`: the end is
`start + timedelta(minutes=duration_minutes)`, the uid is derived with
`stable_uid(subject, organizer_email, start.isoformat())` when none (or
an empty one) is supplied, and the `ICSInvite` is assembled. -/
def interviewInvite (subject agenda location organizer_email organizer_name : Str)
    (attendees : List Attendee) (start_utc : PyDateTime) (duration_minutes : Int)
    (uid : Option Str) : ICSInvite :=
  let start := interviewStart start_utc
  { uid := pyOr (uid.getD []) (stable_uid [subject, organizer_email, isoformat start])
    summary := subject
    description := pyOr agenda []
    location := pyOr location []
    organizer_email := organizer_email
    organizer_name := pyOr organizer_name organizer_email
    attendees := attendees
    start_utc := start
    end_utc := { start with naiveSec := start.naiveSec + duration_minutes * 60 } }

/-- Model of `create_ics_from_interview` (lines 102-137): assemble the invite and
render it. -/
def create_ics_from_interview (subject agenda location organizer_email organizer_name : Str)
    (attendees : List Attendee) (start_utc : PyDateTime) (duration_minutes : Int)
    (uid : Option Str) (now : Int) : Except PyErr Str :=
  (interviewInvite subject agenda location organizer_email organizer_name
    attendees start_utc duration_minutes uid).to_ics now

/-! ### Spec-modelled reminder rendering

`src/ics_utils.py` has no `reminder_minutes_before` field and never emits
a VALARM; the spec (§3, §4.2) describes an alarm-bearing builder variant
of this repository that is not among the files under `src/`. -/

/-- Modelled from the spec: the VALARM sub-component emitted for
`reminder_minutes_before = some n`, absent when the field is unset
(`BEGIN:VALARM / TRIGGER:-PT<N>M / ACTION:DISPLAY / DESCRIPTION:Reminder /
END:VALARM`, spec §4.2). -/
def valarmBlock : Option Nat → List Str
  | none => []
  | some n =>
      [str "BEGIN:VALARM",
       str "TRIGGER:-PT" ++ (Nat.repr n).data ++ str "M",
       str "ACTION:DISPLAY",
       str "DESCRIPTION:Reminder",
       str "END:VALARM"]

/-- Modelled from the spec: the alarm-bearing builder variant — the line
list of §4.2 with the optional VALARM block placed before `END:VEVENT`. -/
def to_ics_lines_reminder (inv : ICSInvite) (now : Int)
    (reminder_minutes_before : Option Nat) : List Str :=
  icsHead inv now ++ icsAttendees inv ++ valarmBlock reminder_minutes_before ++
    [str "END:VEVENT", str "END:VCALENDAR"]

/-! ### `GraphClient.send_mail` (src/graph_client.py lines 34-84)

The payload construction and HTTP POST are external I/O; the transport's
response status code is the parameter of the model. -/

inductive GraphErr where
  | authErr : Nat → GraphErr
  | apiErr : Nat → GraphErr
deriving DecidableEq

structure SendSuccess where
  success : Bool
  status_code : Nat
deriving DecidableEq

/-- Outcome classification of `send_mail` (lines 78-84): status 401/403
raises `GraphAuthError`, any other status outside {200, 201, 202} raises
`GraphAPIError`, otherwise `{"success": True, "status_code": r.status_code}`
is returned. -/
def send_mail (status_code : Nat) : Except GraphErr SendSuccess :=
  if status_code = 401 ∨ status_code = 403 then
    .error (.authErr status_code)
  else if ¬ (status_code = 200 ∨ status_code = 201 ∨ status_code = 202) then
    .error (.apiErr status_code)
  else
    .ok ⟨true, status_code⟩

/-! ### Derived views of the rendered document and sample data -/

/-- The role tokens emitted for the filtered attendees, in emission
order. -/
def emittedRoles (inv : ICSInvite) : List Str :=
  (inv.attendees.filter (fun a => attendeeEmail a ≠ [])).map attendeeRole

/-- The ATTENDEE ordering in the spec's words (§4.2): all required-role
lines first, then the remaining (optional-role) lines, input order
preserved within each group. -/
def icsAttendeesGrouped (inv : ICSInvite) : List Str :=
  let emitted := inv.attendees.filter (fun a => attendeeEmail a ≠ [])
  (emitted.filter (fun a => attendeeRole a = str "REQ-PARTICIPANT")).map attendeeLine ++
    (emitted.filter (fun a => attendeeRole a ≠ str "REQ-PARTICIPANT")).map attendeeLine

/-- A content line is an ATTENDEE line when it starts with `ATTENDEE`. -/
def isAttendeeLine (l : Str) : Bool := (str "ATTENDEE").isPrefixOf l

def sampleStart : PyDateTime := mkDT 2024 3 5 9 30 0 (some 0)

def sampleEnd : PyDateTime := mkDT 2024 3 5 10 0 0 (some 0)

def reqAttendee : Attendee :=
  ⟨some (str "r1@x.com"), some (str "R1"), some (str "REQ-PARTICIPANT")⟩

def reqAttendee2 : Attendee :=
  ⟨some (str "r2@x.com"), some (str "R2"), some (str "REQ-PARTICIPANT")⟩

def optAttendee : Attendee :=
  ⟨some (str "o1@x.com"), some (str "O1"), some (str "OPT-PARTICIPANT")⟩

def chairAttendee : Attendee :=
  ⟨some (str "c@x.com"), some (str "C"), some (str "CHAIR")⟩

def emptyEmailAttendee : Attendee := ⟨some [], some (str "E"), none⟩

/-- A valid invite over the given attendee list. -/
def sampleInvite (atts : List Attendee) : ICSInvite :=
  { uid := str "uid1"
    summary := str "Phone Screen"
    description := str "agenda"
    location := str "Zoom"
    organizer_email := str "hr@powerdashhr.com"
    organizer_name := str "HR Team"
    attendees := atts
    start_utc := sampleStart
    end_utc := sampleEnd }

/-- The sample invite with the end instant one second after the start. -/
def invitePlusOneSec : ICSInvite :=
  { sampleInvite [] with end_utc := mkDT 2024 3 5 9 30 1 (some 0) }

/-- The sample invite with the end instant equal to the start. -/
def inviteEqualWindow : ICSInvite :=
  { sampleInvite [] with end_utc := sampleStart }

/-- Decidable equality of `Except` results, for evaluating concrete
renders. -/
instance {ε α : Type} [DecidableEq ε] [DecidableEq α] : DecidableEq (Except ε α) :=
  fun a b =>
    match a, b with
    | .error x, .error y =>
        if h : x = y then isTrue (by rw [h])
        else isFalse fun hc => h (Except.error.inj hc)
    | .ok x, .ok y =>
        if h : x = y then isTrue (by rw [h])
        else isFalse fun hc => h (Except.ok.inj hc)
    | .error _, .ok _ => isFalse fun hc => Except.noConfusion hc
    | .ok _, .error _ => isFalse fun hc => Except.noConfusion hc

/-! ## Helper lemmas -/

theorem stable_uid_ne_nil (parts : List Str) : stable_uid parts ≠ [] := by
  unfold stable_uid
  intro h
  exact absurd (List.append_eq_nil.mp h).2 (by decide)

theorem strAppendNeNil (s : String) (t : Str) (hs : s.data ≠ []) : str s ++ t ≠ [] := by
  intro h
  exact hs (List.append_eq_nil.mp h).1

theorem pyOr_ne_nil (a b : Str) (hb : b ≠ []) : pyOr a b ≠ [] := by
  unfold pyOr
  split_ifs with h
  · exact hb
  · exact h

theorem attendeeLine_ne_nil (a : Attendee) : attendeeLine a ≠ [] := by
  unfold attendeeLine
  exact List.append_ne_nil_of_left_ne_nil
    (List.append_ne_nil_of_left_ne_nil
      (List.append_ne_nil_of_left_ne_nil
        (List.append_ne_nil_of_left_ne_nil
          (List.append_ne_nil_of_left_ne_nil (by decide) _) _) _) _) _

theorem isAttendeeLine_attendeeLine (a : Attendee) :
    isAttendeeLine (attendeeLine a) = true := rfl

theorem filter_isAttendeeLine_icsHead (inv : ICSInvite) (n : Int) :
    (icsHead inv n).filter isAttendeeLine = [] := rfl

theorem not_valarm_mem_to_ics_lines (inv : ICSInvite) (now : Int) :
    str "BEGIN:VALARM" ∉ to_ics_lines inv now := by
  intro h
  rw [to_ics_lines] at h
  rcases List.mem_append.mp h with h1 | h2
  · rcases List.mem_append.mp h1 with hh | ha
    · simp only [icsHead, List.mem_cons, List.not_mem_nil, or_false] at hh
      rcases hh with h'|h'|h'|h'|h'|h'|h'|h'|h'|h'|h'|h'|h'|h'|h'|h'|h' <;>
        first
          | exact absurd h' (by decide)
          | (injection h' with h1 h2; exact absurd h1 (by decide))
    · obtain ⟨a, -, hae⟩ := List.mem_map.mp ha
      injection hae with h1 h2
      exact absurd h1 (by decide)
  · simp only [List.mem_cons, List.not_mem_nil, or_false] at h2
    rcases h2 with h'|h' <;> exact absurd h' (by decide)

/-! ## Claims -/

set_option maxRecDepth 100000

/-- C1 (amended): `stable_uid` equals the reference pipeline — discard
parts, trim, join with `|`, SHA-256 hex truncated to 32 characters,
append `@powerdashhr.com` — on every input whose non-empty parts do not
strip to nothing; the code discards only parts that are empty before
trimming, so a whitespace-only part is kept and contributes an empty
segment between delimiters (see the counterexample).  For the all-empty
input the result is still the non-empty identifier built from the hash
of the empty string. -/
theorem stable_uid_matches_spec (parts : List Str)
    (hb : ∀ p ∈ parts, p ≠ [] → stripC p ≠ []) :
    stable_uid parts = spec_derive_uid parts ∧
    stable_uid parts ≠ [] ∧
    ((∀ p ∈ parts, p = []) →
      stable_uid parts = str "e3b0c44298fc1c149afbf4c8996fb924@powerdashhr.com") := by
  refine ⟨?_, stable_uid_ne_nil parts, ?_⟩
  · unfold stable_uid spec_derive_uid
    have hf : parts.filter (fun p => p ≠ []) = parts.filter (fun p => stripC p ≠ []) := by
      apply List.filter_congr
      intro x hx
      by_cases hx0 : x = []
      · subst hx0; decide
      · simp [hx0, hb x hx hx0]
    rw [hf]
  · intro hall
    have hf : parts.filter (fun p => p ≠ []) = [] := by
      simp only [List.filter_eq_nil_iff]
      intro a ha
      simp [hall a ha]
    unfold stable_uid
    rw [hf]
    decide

/-- Witness for C1: the theorem applied to the all-empty input, giving the
explicit hash-of-empty-string identifier. -/
theorem stable_uid_matches_spec_witness :
    stable_uid [[], []] = str "e3b0c44298fc1c149afbf4c8996fb924@powerdashhr.com" :=
  (stable_uid_matches_spec [[], []] (by decide)).2.2 (by decide)

/-- C1 counterexample: on parts `["a", " ", "b"]` the code keeps the
whitespace-only part (the filter `if p` tests the part before stripping)
and hashes `"a||b"`, while the spec's pipeline discards it and hashes
`"a|b"`; the resulting identifiers differ. -/
theorem stable_uid_blank_part_counterexample :
    stable_uid [str "a", str " ", str "b"] ≠
      spec_derive_uid [str "a", str " ", str "b"] := by
  decide

/-- C9: `send_mail` raises `GraphAuthError` exactly on transport status
401 or 403, raises `GraphAPIError` exactly on any other status outside
{200, 201, 202}, and otherwise succeeds carrying the transport status
code. -/
theorem send_mail_outcomes (st : Nat) :
    (send_mail st = .error (.authErr st) ↔ (st = 401 ∨ st = 403)) ∧
    (send_mail st = .error (.apiErr st) ↔
      ¬(st = 401 ∨ st = 403) ∧ ¬(st = 200 ∨ st = 201 ∨ st = 202)) ∧
    (send_mail st = .ok ⟨true, st⟩ ↔ (st = 200 ∨ st = 201 ∨ st = 202)) := by
  unfold send_mail
  split_ifs with h1 h2 <;> simp_all
  omega

/-- Witness for C9: the theorem applied at statuses 401, 500 and 202. -/
theorem send_mail_outcomes_witness :
    send_mail 401 = .error (.authErr 401) ∧
    send_mail 500 = .error (.apiErr 500) ∧
    send_mail 202 = .ok ⟨true, 202⟩ :=
  ⟨(send_mail_outcomes 401).1.mpr (by decide),
   (send_mail_outcomes 500).2.1.mpr (by decide),
   (send_mail_outcomes 202).2.2.mpr (by decide)⟩

/-- C2: rendering is a pure function of the invite fields and the wall
clock: renders with the same `now` are byte-identical, and the line lists
of two renders with different `now` values share a common 7-line prefix
and a common suffix around position 7, which holds the DTSTAMP line — so
the outputs differ at most in that line; on success the output is exactly
the CRLF-joined line list. -/
theorem to_ics_dtstamp_only (inv : ICSInvite) (n1 n2 : Int) :
    (n1 = n2 → inv.to_ics n1 = inv.to_ics n2) ∧
    (∃ A B, A.length = 7 ∧
      to_ics_lines inv n1 = A ++ (str "DTSTAMP:" ++ _fmt_dt ⟨n1, some 0⟩) :: B ∧
      to_ics_lines inv n2 = A ++ (str "DTSTAMP:" ++ _fmt_dt ⟨n2, some 0⟩) :: B) ∧
    (∀ s, inv.to_ics n1 = .ok s → s = joinCRLF (to_ics_lines inv n1)) := by
  refine ⟨fun h => by rw [h], ?_, ?_⟩
  · refine ⟨[str "BEGIN:VCALENDAR",
             str "PRODID:-//PowerDash HR//Interview Scheduler//EN",
             str "VERSION:2.0",
             str "METHOD:" ++ inv.method,
             str "CALSCALE:GREGORIAN",
             str "BEGIN:VEVENT",
             str "UID:" ++ inv.uid],
            [str "DTSTART:" ++ _fmt_dt inv.start_utc,
             str "DTEND:" ++ _fmt_dt inv.end_utc,
             str "SUMMARY:" ++ inv.summary,
             str "DESCRIPTION:" ++ inv.description,
             str "LOCATION:" ++ inv.location,
             str "ORGANIZER;CN=" ++ inv.organizer_name ++ str ":MAILTO:" ++ inv.organizer_email,
             str "SEQUENCE:0",
             str "STATUS:CONFIRMED",
             str "TRANSP:OPAQUE"] ++ icsAttendees inv ++
              [str "END:VEVENT", str "END:VCALENDAR"], rfl, ?_, ?_⟩ <;>
      simp [to_ics_lines, icsHead]
  · intro s h
    rcases hv : inv.validate with e | u
    · rw [ICSInvite.to_ics, hv] at h
      exact absurd h (by simp)
    · rw [ICSInvite.to_ics, hv] at h
      exact (Except.ok.inj h).symm

/-- Witness for C2: the theorem applied at the sample invite with equal
`now` values, discharging both hypotheses. -/
theorem to_ics_dtstamp_only_witness :
    (sampleInvite []).to_ics 5 = (sampleInvite []).to_ics 5 ∧
    joinCRLF (to_ics_lines (sampleInvite []) 5) =
      joinCRLF (to_ics_lines (sampleInvite []) 5) :=
  ⟨(to_ics_dtstamp_only (sampleInvite []) 5 5).1 rfl,
   (to_ics_dtstamp_only (sampleInvite []) 5 5).2.2 _ (by decide)⟩

/-- C3 (amended): ATTENDEE lines are emitted in the attendees' input
order with each attendee's role as given — the code performs no
regrouping by role.  When the input itself lists all required attendees
before all optional ones, the output coincides with the spec's grouped
order, and the 2-required + 1-optional sample in that input order yields
ROLE values REQ-PARTICIPANT, REQ-PARTICIPANT, OPT-PARTICIPANT. -/
theorem attendee_lines_input_order (inv : ICSInvite) (req opt : List Attendee)
    (hsplit : inv.attendees = req ++ opt)
    (hreq : ∀ a ∈ req, attendeeRole a = str "REQ-PARTICIPANT")
    (hopt : ∀ a ∈ opt, attendeeRole a ≠ str "REQ-PARTICIPANT") :
    icsAttendees inv = icsAttendeesGrouped inv ∧
    emittedRoles (sampleInvite [reqAttendee, reqAttendee2, optAttendee]) =
      [str "REQ-PARTICIPANT", str "REQ-PARTICIPANT", str "OPT-PARTICIPANT"] := by
  refine ⟨?_, by decide⟩
  simp only [icsAttendees, icsAttendeesGrouped]
  rw [hsplit, List.filter_append, List.filter_append, List.filter_append]
  have hA : (req.filter (fun a => attendeeEmail a ≠ [])).filter
      (fun a => attendeeRole a = str "REQ-PARTICIPANT") =
      req.filter (fun a => attendeeEmail a ≠ []) :=
    List.filter_eq_self.mpr fun a ha => by
      simp [hreq a (List.mem_of_mem_filter ha)]
  have hB : (opt.filter (fun a => attendeeEmail a ≠ [])).filter
      (fun a => attendeeRole a = str "REQ-PARTICIPANT") = [] :=
    List.filter_eq_nil_iff.mpr fun a ha => by
      simp [hopt a (List.mem_of_mem_filter ha)]
  have hA2 : (req.filter (fun a => attendeeEmail a ≠ [])).filter
      (fun a => attendeeRole a ≠ str "REQ-PARTICIPANT") = [] :=
    List.filter_eq_nil_iff.mpr fun a ha => by
      simp [hreq a (List.mem_of_mem_filter ha)]
  have hB2 : (opt.filter (fun a => attendeeEmail a ≠ [])).filter
      (fun a => attendeeRole a ≠ str "REQ-PARTICIPANT") =
      opt.filter (fun a => attendeeEmail a ≠ []) :=
    List.filter_eq_self.mpr fun a ha => by
      simp [hopt a (List.mem_of_mem_filter ha)]
  rw [hA, hB, hA2, hB2, List.append_nil, List.nil_append, List.map_append]

/-- Witness for C3: the theorem applied at a 1-required + 1-optional
input in grouped order. -/
theorem attendee_lines_input_order_witness :
    icsAttendees (sampleInvite [reqAttendee, optAttendee]) =
      icsAttendeesGrouped (sampleInvite [reqAttendee, optAttendee]) :=
  (attendee_lines_input_order (sampleInvite [reqAttendee, optAttendee])
    [reqAttendee] [optAttendee] rfl (by decide) (by decide)).1

/-- C3 counterexample: with the optional attendee listed first, the code
emits the OPT-PARTICIPANT line before the REQ-PARTICIPANT line — the
output is not grouped by role as the claim states. -/
theorem attendee_lines_not_grouped_counterexample :
    icsAttendees (sampleInvite [optAttendee, reqAttendee]) ≠
      icsAttendeesGrouped (sampleInvite [optAttendee, reqAttendee]) := by
  decide

/-- C4 (amended): the ROLE token on an emitted ATTENDEE line is the
attendee dict's `role` string taken verbatim (stripped), with
REQ-PARTICIPANT as the default when the key is absent or empty; thus
attendees carrying the REQUIRED / OPTIONAL representation tokens
`REQ-PARTICIPANT` / `OPT-PARTICIPANT` are emitted with exactly those
tokens, but the code does not restrict ROLE to these two values (see the
counterexample). -/
theorem attendee_role_mapping (a : Attendee) :
    (a.role = some (str "REQ-PARTICIPANT") → attendeeRole a = str "REQ-PARTICIPANT") ∧
    (a.role = some (str "OPT-PARTICIPANT") → attendeeRole a = str "OPT-PARTICIPANT") ∧
    (a.role = none → attendeeRole a = str "REQ-PARTICIPANT") ∧
    (∀ r, a.role = some r → r ≠ [] → attendeeRole a = stripC r) ∧
    attendeeLine a =
      str "ATTENDEE;CN=" ++ attendeeName a ++ str ";ROLE=" ++ attendeeRole a ++
        str ";PARTSTAT=NEEDS-ACTION;RSVP=TRUE:MAILTO:" ++ attendeeEmail a := by
  refine ⟨?_, ?_, ?_, ?_, rfl⟩
  · intro h; simp only [attendeeRole, h, Option.getD_some]; decide
  · intro h; simp only [attendeeRole, h, Option.getD_some]; decide
  · intro h; simp only [attendeeRole, h, Option.getD_none]; decide
  · intro r h hr
    simp only [attendeeRole, h, Option.getD_some, pyOr, if_neg hr]

/-- Witness for C4: the theorem applied at the CHAIR-role attendee,
discharging the verbatim-role hypothesis. -/
theorem attendee_role_mapping_witness :
    attendeeRole chairAttendee = stripC (str "CHAIR") :=
  (attendee_role_mapping chairAttendee).2.2.2.1 (str "CHAIR") rfl (by decide)

/-- C4 counterexample: an attendee whose dict carries role `CHAIR` is
rendered with `ROLE=CHAIR` — the emitted ROLE value is not one of the two
tokens REQ-PARTICIPANT / OPT-PARTICIPANT, because the code copies the
role string verbatim instead of mapping an enum. -/
theorem attendee_role_not_restricted_counterexample :
    emittedRoles (sampleInvite [chairAttendee]) = [str "CHAIR"] ∧
    str "ATTENDEE;CN=C;ROLE=CHAIR;PARTSTAT=NEEDS-ACTION;RSVP=TRUE:MAILTO:c@x.com" ∈
      to_ics_lines (sampleInvite [chairAttendee]) 0 ∧
    ¬(∀ r ∈ emittedRoles (sampleInvite [chairAttendee]),
        r = str "REQ-PARTICIPANT" ∨ r = str "OPT-PARTICIPANT") := by
  decide

/-- C5 (spec-modelled): in the alarm-bearing builder variant, the
rendered line list contains the VALARM sub-component if and only if
`reminder_minutes_before` is set; when it is set to `n`, the five VALARM
lines with `TRIGGER:-PT<n>M` appear contiguously, and when it is unset
the output is exactly the plain render of `src/ics_utils.py`. -/
theorem valarm_iff_reminder (inv : ICSInvite) (now : Int) (r : Option Nat) :
    (str "BEGIN:VALARM" ∈ to_ics_lines_reminder inv now r ↔ r.isSome = true) ∧
    (∀ n, r = some n →
      (valarmBlock (some n)).IsInfix (to_ics_lines_reminder inv now r) ∧
      str "TRIGGER:-PT" ++ (Nat.repr n).data ++ str "M" ∈
        to_ics_lines_reminder inv now r) ∧
    (r = none → to_ics_lines_reminder inv now r = to_ics_lines inv now) := by
  have hnone : to_ics_lines_reminder inv now none = to_ics_lines inv now := by
    simp [to_ics_lines_reminder, to_ics_lines, valarmBlock]
  refine ⟨?_, ?_, fun hr => hr ▸ hnone⟩
  · cases r with
    | none =>
        simp only [Option.isSome_none, hnone]
        exact iff_of_false (not_valarm_mem_to_ics_lines inv now) (by simp)
    | some n =>
        simp [to_ics_lines_reminder, valarmBlock]
  · intro n hr
    subst hr
    constructor
    · exact ⟨icsHead inv now ++ icsAttendees inv,
             [str "END:VEVENT", str "END:VCALENDAR"],
             by simp [to_ics_lines_reminder, List.append_assoc]⟩
    · simp [to_ics_lines_reminder, valarmBlock]

/-- Witness for C5: the theorem applied at reminder 15 minutes. -/
theorem valarm_iff_reminder_witness :
    (valarmBlock (some 15)).IsInfix
      (to_ics_lines_reminder (sampleInvite []) 0 (some 15)) ∧
    str "TRIGGER:-PT" ++ (Nat.repr 15).data ++ str "M" ∈
      to_ics_lines_reminder (sampleInvite []) 0 (some 15) :=
  (valarm_iff_reminder (sampleInvite []) 0 (some 15)).2.1 15 rfl

/-- C6: for an invite whose uid, summary and organizer email are
non-empty and whose start/end instants are both aware or both naive,
rendering fails with the `end_utc must be after start_utc`
ValidationError exactly when the end instant is less than or equal to the
start instant, and succeeds — producing the joined line list, with
nothing produced on failure — whenever the end is strictly after the
start. -/
theorem validate_window (inv : ICSInvite) (now : Int)
    (hu : inv.uid ≠ []) (hs : inv.summary ≠ []) (ho : inv.organizer_email ≠ [])
    (haw : inv.start_utc.off.isSome = inv.end_utc.off.isSome) :
    (inv.to_ics now = .error (.ics (str "end_utc must be after start_utc")) ↔
      inv.end_utc.instant ≤ inv.start_utc.instant) ∧
    (inv.start_utc.instant < inv.end_utc.instant →
      inv.to_ics now = .ok (joinCRLF (to_ics_lines inv now))) := by
  have hle : dtLeB inv.end_utc inv.start_utc =
      .ok (decide (inv.end_utc.instant ≤ inv.start_utc.instant)) := by
    rcases hs1 : inv.start_utc.off with _ | o1 <;>
      rcases he1 : inv.end_utc.off with _ | o2 <;>
        simp [hs1, he1] at haw ⊢ <;>
          simp [dtLeB, hs1, he1, PyDateTime.instant]
  by_cases hP : inv.end_utc.instant ≤ inv.start_utc.instant
  · have hv : inv.validate = .error (.ics (str "end_utc must be after start_utc")) := by
      unfold ICSInvite.validate
      rw [if_neg hu, if_neg hs, if_neg ho, hle, decide_eq_true hP]
    have ht : inv.to_ics now = .error (.ics (str "end_utc must be after start_utc")) := by
      unfold ICSInvite.to_ics
      rw [hv]
    exact ⟨iff_of_true ht hP, fun hlt => absurd hP (by omega)⟩
  · have hv : inv.validate = .ok () := by
      unfold ICSInvite.validate
      rw [if_neg hu, if_neg hs, if_neg ho, hle, decide_eq_false hP]
    have ht : inv.to_ics now = .ok (joinCRLF (to_ics_lines inv now)) := by
      unfold ICSInvite.to_ics
      rw [hv]
    refine ⟨iff_of_false ?_ hP, fun _ => ht⟩
    rw [ht]
    simp

/-- Witness for C6: the sample invite succeeds with the end one second
after the start, and fails with the end equal to the start. -/
theorem validate_window_witness :
    invitePlusOneSec.to_ics 0 = .ok (joinCRLF (to_ics_lines invitePlusOneSec 0)) ∧
    inviteEqualWindow.to_ics 0 =
      .error (.ics (str "end_utc must be after start_utc")) :=
  ⟨(validate_window invitePlusOneSec 0 (by decide) (by decide) (by decide)
      (by decide)).2 (by decide),
   (validate_window inviteEqualWindow 0 (by decide) (by decide) (by decide)
      (by decide)).1.mpr (by decide)⟩

/-- C7: `_fmt_dt` interprets a naive instant as UTC (rendering it exactly
as the same instant with an explicit UTC offset), renders aware instants
as a function of their absolute UTC instant only, always produces the
basic format — zero-padded year, month, day, `T`, two-digit hour, minute
and second within range, trailing `Z` — and renders the spec's example
start as exactly `DTSTART:20240305T093000Z` (line index 8 of the
document). -/
theorem fmt_dt_utc_basic :
    (∀ n : Int, _fmt_dt ⟨n, none⟩ = _fmt_dt ⟨n, some 0⟩) ∧
    (∀ n1 o1 n2 o2 : Int, n1 - o1 * 60 = n2 - o2 * 60 →
      _fmt_dt ⟨n1, some o1⟩ = _fmt_dt ⟨n2, some o2⟩) ∧
    (∀ u : Int, ∃ y mo d h mi s : Nat,
      fmtBasic u =
        padNum 4 y ++ padNum 2 mo ++ padNum 2 d ++ ['T'] ++ padNum 2 h ++
          padNum 2 mi ++ padNum 2 s ++ ['Z'] ∧ h < 24 ∧ mi < 60 ∧ s < 60) ∧
    (str "DTSTART:" ++ _fmt_dt (mkDT 2024 3 5 9 30 0 (some 0)) =
      str "DTSTART:20240305T093000Z") ∧
    (to_ics_lines (sampleInvite []) 0)[8]? = some (str "DTSTART:20240305T093000Z") := by
  refine ⟨fun n => by simp [_fmt_dt], ?_, ?_, by decide, by decide⟩
  · intro n1 o1 n2 o2 h
    show fmtBasic (n1 - o1 * 60) = fmtBasic (n2 - o2 * 60)
    exact congrArg fmtBasic h
  · intro u
    have h1 : 0 ≤ Int.fmod u 86400 := Int.fmod_nonneg' u (by norm_num)
    have h2 : Int.fmod u 86400 < 86400 := Int.fmod_lt_of_pos u (by norm_num)
    have h3 : (Int.fmod u 86400).toNat < 86400 := by omega
    refine ⟨(civilFromDays (Int.fdiv u 86400)).1.toNat,
            (civilFromDays (Int.fdiv u 86400)).2.1.toNat,
            (civilFromDays (Int.fdiv u 86400)).2.2.toNat,
            (Int.fmod u 86400).toNat / 3600,
            (Int.fmod u 86400).toNat % 3600 / 60,
            (Int.fmod u 86400).toNat % 60, rfl, ?_, ?_, ?_⟩
    · exact (Nat.div_lt_iff_lt_mul (by norm_num)).mpr (by omega)
    · have : (Int.fmod u 86400).toNat % 3600 < 3600 := Nat.mod_lt _ (by norm_num)
      exact (Nat.div_lt_iff_lt_mul (by norm_num)).mpr (by omega)
    · exact Nat.mod_lt _ (by norm_num)

/-- Witness for C7: instant-invariance applied at 01:00 naive with a
+60-minute offset against midnight UTC. -/
theorem fmt_dt_utc_basic_witness :
    _fmt_dt ⟨3600, some 60⟩ = _fmt_dt ⟨0, some 0⟩ :=
  fmt_dt_utc_basic.2.1 3600 60 0 0 (by decide)

/-- C8: the ATTENDEE lines of the rendered document are exactly one line
per attendee whose stripped email is non-empty — attendees with an empty
email are omitted without error — no emitted line is blank, the ATTENDEE
line count equals the count of attendees with non-empty email, and a
valid invite renders successfully. -/
theorem attendee_lines_skip_empty (inv : ICSInvite) (now : Int) :
    (to_ics_lines inv now).filter isAttendeeLine =
      (inv.attendees.filter (fun a => attendeeEmail a ≠ [])).map attendeeLine ∧
    (∀ l ∈ to_ics_lines inv now, l ≠ []) ∧
    ((to_ics_lines inv now).filter isAttendeeLine).length =
      (inv.attendees.filter (fun a => attendeeEmail a ≠ [])).length ∧
    (inv.validate = .ok () → inv.to_ics now = .ok (joinCRLF (to_ics_lines inv now))) := by
  have hfilter : (to_ics_lines inv now).filter isAttendeeLine = icsAttendees inv := by
    rw [to_ics_lines, List.filter_append, List.filter_append,
        filter_isAttendeeLine_icsHead]
    have h1 : (icsAttendees inv).filter isAttendeeLine = icsAttendees inv :=
      List.filter_eq_self.mpr fun l hl => by
        obtain ⟨a, -, rfl⟩ := List.mem_map.mp hl
        exact isAttendeeLine_attendeeLine a
    have h2 : ([str "END:VEVENT", str "END:VCALENDAR"] : List Str).filter
        isAttendeeLine = [] := rfl
    rw [h1, h2, List.append_nil, List.nil_append]
  refine ⟨hfilter, ?_, ?_, ?_⟩
  · intro l hl
    rw [to_ics_lines] at hl
    rcases List.mem_append.mp hl with h1 | h2
    · rcases List.mem_append.mp h1 with hh | ha
      · simp only [icsHead, List.mem_cons, List.not_mem_nil, or_false] at hh
        rcases hh with rfl|rfl|rfl|rfl|rfl|rfl|rfl|rfl|rfl|rfl|rfl|rfl|rfl|rfl|rfl|rfl|rfl <;>
          first
            | decide
            | exact strAppendNeNil _ _ (by decide)
            | exact List.append_ne_nil_of_left_ne_nil
                (List.append_ne_nil_of_left_ne_nil
                  (strAppendNeNil _ _ (by decide)) _) _
      · obtain ⟨a, -, rfl⟩ := List.mem_map.mp ha
        exact attendeeLine_ne_nil a
    · simp only [List.mem_cons, List.not_mem_nil, or_false] at h2
      rcases h2 with rfl | rfl <;> decide
  · rw [hfilter, icsAttendees, List.length_map]
  · intro hv
    unfold ICSInvite.to_ics
    rw [hv]

/-- Witness for C8: a two-attendee invite with one empty email renders
successfully with exactly one ATTENDEE line. -/
theorem attendee_lines_skip_empty_witness :
    ((to_ics_lines (sampleInvite [reqAttendee, emptyEmailAttendee]) 0).filter
        isAttendeeLine).length = 1 ∧
    (sampleInvite [reqAttendee, emptyEmailAttendee]).to_ics 0 =
      .ok (joinCRLF (to_ics_lines (sampleInvite [reqAttendee, emptyEmailAttendee]) 0)) :=
  ⟨by
    rw [(attendee_lines_skip_empty (sampleInvite [reqAttendee, emptyEmailAttendee]) 0).2.2.1]
    decide,
   (attendee_lines_skip_empty (sampleInvite [reqAttendee, emptyEmailAttendee]) 0).2.2.2
     (by decide)⟩

/-- C10: `create_ics_from_interview` with non-positive duration (and
otherwise valid fields) fails with the `end_utc must be after start_utc`
ValidationError — the end is the start plus the duration, so it is not
strictly after the start — and conversely every successful render has a
strictly positive duration. -/
theorem create_ics_duration (subject agenda location oe onm : Str)
    (attendees : List Attendee) (start : PyDateTime) (dur : Int)
    (uid : Option Str) (now : Int) (hs : subject ≠ []) (ho : oe ≠ []) :
    (dur ≤ 0 →
      create_ics_from_interview subject agenda location oe onm attendees start dur uid now =
        .error (.ics (str "end_utc must be after start_utc"))) ∧
    (∀ s, create_ics_from_interview subject agenda location oe onm attendees start dur uid now =
        .ok s → 0 < dur) := by
  have hu : (interviewInvite subject agenda location oe onm attendees start dur uid).uid ≠ [] :=
    pyOr_ne_nil _ _ (stable_uid_ne_nil _)
  obtain ⟨h1, h2⟩ := validate_window
    (interviewInvite subject agenda location oe onm attendees start dur uid) now hu hs ho rfl
  have hinst :
      (interviewInvite subject agenda location oe onm attendees start dur uid).end_utc.instant ≤
        (interviewInvite subject agenda location oe onm attendees start dur uid).start_utc.instant ↔
      dur ≤ 0 := by
    simp only [interviewInvite, PyDateTime.instant]
    omega
  constructor
  · intro hd
    exact h1.mpr (hinst.mpr hd)
  · intro s hok
    by_contra hpos
    push_neg at hpos
    rw [show create_ics_from_interview subject agenda location oe onm attendees start dur uid now =
          (interviewInvite subject agenda location oe onm attendees start dur uid).to_ics now
        from rfl, h1.mpr (hinst.mpr hpos)] at hok
    exact Except.noConfusion hok

/-- Witness for C10: a zero-minute interview at a naive start instant is
rejected with the window ValidationError. -/
theorem create_ics_duration_witness :
    create_ics_from_interview (str "Phone Screen") [] [] (str "hr@powerdashhr.com") []
      [] (mkDT 2024 6 1 15 0 0 none) 0 none 0 =
      .error (.ics (str "end_utc must be after start_utc")) :=
  (create_ics_duration (str "Phone Screen") [] [] (str "hr@powerdashhr.com") []
    [] (mkDT 2024 6 1 15 0 0 none) 0 none 0 (by decide) (by decide)).1 (by decide)

end Scheduler
